import Mathlib

/-!
Shallow embedding of the hip-rs core: the status-code-to-error translation
layer (src/core/result.rs) and the device-identity/capability query API
(src/runtime/init.rs and src/runtime/safe.rs).

Machine integers are modelled as `Nat` (u32, u64) and `Int` (i8, i32) with
explicit reductions modulo 2^w where the Rust code performs an `as` cast.
Each native (FFI) call is modelled by its observable outcome: the status
code it returns and, for each out-parameter, an `Option` holding the value
it wrote (`none` when the call left the slot untouched), so that the
sentinel pre-initialization in the Rust code is visible in the embedding.
-/

namespace HipRs

/-- Reinterpretation of a Rust `i32` value as `u64` (`v as u64`):
sign-extension to 64 bits, i.e. the value modulo 2^64 = 18446744073709551616. -/
def i32ToU64 (v : Int) : Nat := (v % 18446744073709551616).toNat

/-- Reinterpretation of a Rust `i8` value as `u8` (`b as u8`):
the value modulo 2^8 = 256. -/
def i8ToU8 (b : Int) : Nat := (b % 256).toNat

/-- Rust `HipErrorKind` from src/core/result.rs: the closed error taxonomy. -/
inductive HipErrorKind where
  | InvalidValue
  | MemoryAllocation
  | NotInitialized
  | Deinitialized
  | InvalidDevice
  | FileNotFound
  | NotReady
  | NotSupported
  | Unknown
deriving DecidableEq, Repr

/-- The `#[repr(u32)]` discriminant of each `HipErrorKind` variant
(`kind as u32` in Rust). -/
def HipErrorKind.raw : HipErrorKind → Nat
  | .InvalidValue => 1
  | .MemoryAllocation => 2
  | .NotInitialized => 3
  | .Deinitialized => 4
  | .InvalidDevice => 101
  | .FileNotFound => 301
  | .NotReady => 600
  | .NotSupported => 801
  | .Unknown => 999

/-- Rust `HipErrorKind::from_raw` from src/core/result.rs: classify a raw HIP
status code into an error kind; unmapped codes fall to `Unknown`. -/
def HipErrorKind.from_raw (error : Nat) : HipErrorKind :=
  match error with
  | 1 => HipErrorKind.InvalidValue
  | 2 => HipErrorKind.MemoryAllocation
  | 3 => HipErrorKind.NotInitialized
  | 4 => HipErrorKind.Deinitialized
  | 101 => HipErrorKind.InvalidDevice
  | 301 => HipErrorKind.FileNotFound
  | 600 => HipErrorKind.NotReady
  | 801 => HipErrorKind.NotSupported
  | _ => HipErrorKind.Unknown

/-- Rust `HipError` from src/core/result.rs: an error kind paired with the
original raw status code. -/
structure HipError where
  kind : HipErrorKind
  code : Nat
deriving DecidableEq, Repr

/-- Rust `HipError::new` from src/core/result.rs. -/
def HipError.new (code : Nat) : HipError :=
  { kind := HipErrorKind.from_raw code, code := code }

/-- Rust `HipError::from_kind` from src/core/result.rs. -/
def HipError.from_kind (kind : HipErrorKind) : HipError :=
  { kind := kind, code := kind.raw }

/-- The Result alias of the crate: `std::result::Result<T, HipError>`. -/
abbrev HipRes (T : Type) := Except HipError T

/-- Rust `HipResult::to_result` for `(T, u32)` from src/core/result.rs:
code `0` yields `Ok(value)`, any other code yields `Err(HipError::new(code))`. -/
def to_result {T : Type} (p : T × Nat) : HipRes T :=
  match p.2 with
  | 0 => Except.ok p.1
  | _ => Except.error (HipError.new p.2)

/-- Modelled from the spec: `Device` (defined in the types module of the crate,
which is not among the provided sources) is an opaque, copyable handle
wrapping a small integer identifier; out-of-range values are representable
and are never rejected at construction. -/
structure Device where
  id : Int
deriving DecidableEq, Repr

/-- Modelled from the spec: `Device::new` wraps an identifier with no
validation (rejection happens only at a call, never at construction). -/
def Device.new (id : Int) : Device := { id := id }

/-- Modelled from the spec: `semver::Version` (external crate) is a
semantic (major, minor, patch) triple of `u64` components. -/
structure Version where
  major : Nat
  minor : Nat
  patch : Nat
deriving DecidableEq, Repr

/-- Modelled from the spec: `Version::new(major, minor, patch)`. -/
def Version.new (major minor patch : Nat) : Version :=
  { major := major, minor := minor, patch := patch }

/-- Modelled from the spec: `PCIBusId` (defined in the types module of the
crate, not among the provided sources) is a fixed-capacity, null-terminated
ASCII buffer; constructed all-zero. Its content is opaque to the claims
settled here, which only pass it through to the native call. -/
structure PCIBusId where
  bytes : List Int
deriving DecidableEq, Repr

/-- The observable outcome of one native call as seen by the wrapper:
either the call returns a status code normally, or it raises a lower-level
fault (a panic crossing the FFI boundary) instead of returning. -/
inductive NativeOutcome where
  | ret (code : Nat)
  | fault
deriving DecidableEq, Repr

end HipRs

namespace HipRs.InitRs

/-!
The functions of src/runtime/init.rs. Each native call is replaced by its
observable outcome: the status code and an `Option` per out-parameter
holding the value the call wrote (`none` = slot left untouched, so the
sentinel initialization by the wrapper survives).
-/

/-- Rust `initialize` from src/runtime/init.rs over a native outcome: the plain
variant calls `hipInit(0)` and feeds the code through `to_result`; it does
not catch a fault, so a faulting native call propagates (modelled as
`none`: the function does not return a `Result`). -/
def runtimeInitO : NativeOutcome → Option (HipRes Unit)
  | .ret code => some (to_result ((), code))
  | .fault => none

/-- Rust `get_device_count` from src/runtime/init.rs: slot initialized to `0`,
native call may overwrite it, pair fed through `to_result`. -/
def get_device_count (written : Option Int) (code : Nat) : HipRes Int :=
  let count := written.getD 0
  to_result (count, code)

/-- Rust `get_device` from src/runtime/init.rs: slot initialized to `-1`. -/
def get_device (written : Option Int) (code : Nat) : HipRes Device :=
  let device_id := written.getD (-1)
  to_result (Device.new device_id, code)

/-- Rust `set_device` from src/runtime/init.rs: passes `device.id` to the
native call and echoes the same `Device` through `to_result`. -/
def set_device (device : Device) (code : Nat) : HipRes Device :=
  to_result (device, code)

/-- Rust `device_compute_capability` from src/runtime/init.rs: both out-slots
initialized to `-1`, then `Version::new(major as u64, minor as u64, 0)`. -/
def device_compute_capability (_device : Device)
    (wMajor wMinor : Option Int) (code : Nat) : HipRes Version :=
  let major := wMajor.getD (-1)
  let minor := wMinor.getD (-1)
  let version := Version.new (i32ToU64 major) (i32ToU64 minor) 0
  to_result (version, code)

/-- Rust `decode_hip_version` from src/runtime/init.rs: sentinel `-1` decodes
to `(0,0,0)`; otherwise major/minor/patch are extracted with Rust `i32`
division and remainder (truncation toward zero) and cast to `u64`. -/
def decode_hip_version (version : Int) : Version :=
  if version = -1 then Version.new 0 0 0
  else
    let major := version.tdiv 1000000
    let minor := (version.tdiv 1000).tmod 1000
    let patch := version.tmod 1000
    Version.new (i32ToU64 major) (i32ToU64 minor) (i32ToU64 patch)

/-- Rust `get_device_uuid_bytes` from src/runtime/init.rs: a 16-byte `i8`
buffer initialized to zero, possibly overwritten by the native call. -/
def get_device_uuid_bytes (_device : Device)
    (written : Option (Fin 16 → Int)) (code : Nat) : HipRes (Fin 16 → Int) :=
  let hip_bytes := written.getD (fun _ => 0)
  to_result (hip_bytes, code)

/-- Rust `get_device_uuid` from src/runtime/init.rs: maps the raw signed bytes
through `b as u8` (bit reinterpretation) and builds the UUID from them;
`Uuid::from_bytes` (external crate) is the identity on the 16 bytes. -/
def get_device_uuid (device : Device)
    (written : Option (Fin 16 → Int)) (code : Nat) : HipRes (Fin 16 → Nat) :=
  (get_device_uuid_bytes device written code).map
    (fun bytes => fun i => i8ToU8 (bytes i))

/-- Rust `get_device_by_pci_bus_id` from src/runtime/init.rs: the output device
identifier slot is pre-set to `i32::MAX` before the native call. -/
def get_device_by_pci_bus_id (_pci_bus_id : PCIBusId)
    (written : Option Int) (code : Nat) : HipRes Device :=
  let device_id := written.getD 2147483647
  to_result (Device.new device_id, code)

end HipRs.InitRs

namespace HipRs.SafeRs

/-!
The functions of src/runtime/safe.rs, modelled the same way.
-/

/-- Rust `initialize` from src/runtime/safe.rs over a native outcome: wraps the
`hipInit(0)` call in `catch_unwind` and maps a caught fault to
`HipError::from_kind(InvalidValue)`; a normal return goes through
`to_result` as usual. Total over outcomes: it always returns a `Result`. -/
def runtimeInitO : NativeOutcome → HipRes Unit
  | .ret code => to_result ((), code)
  | .fault => Except.error (HipError.from_kind HipErrorKind.InvalidValue)

/-- Rust `get_device_count` from src/runtime/safe.rs. -/
def get_device_count (written : Option Int) (code : Nat) : HipRes Int :=
  let count := written.getD 0
  to_result (count, code)

/-- Rust `get_device` from src/runtime/safe.rs. -/
def get_device (written : Option Int) (code : Nat) : HipRes Device :=
  let device_id := written.getD (-1)
  to_result (Device.new device_id, code)

/-- Rust `set_device` from src/runtime/safe.rs. -/
def set_device (device : Device) (code : Nat) : HipRes Device :=
  to_result (device, code)

/-- Rust `device_compute_capability` from src/runtime/safe.rs. -/
def device_compute_capability (_device : Device)
    (wMajor wMinor : Option Int) (code : Nat) : HipRes Version :=
  let major := wMajor.getD (-1)
  let minor := wMinor.getD (-1)
  let version := Version.new (i32ToU64 major) (i32ToU64 minor) 0
  to_result (version, code)

end HipRs.SafeRs

namespace HipRs

/-- C1: `to_result((v, c))` returns `Ok(v)` with the original value exactly
when `c = 0`; for every nonzero `c` it returns an error whose kind is
`HipErrorKind::from_raw(c)` and whose `code` field is the original raw
code `c`. -/
theorem to_result_spec {T : Type} (v : T) (c : Nat) :
    (to_result (v, c) = Except.ok v ↔ c = 0) ∧
    (c ≠ 0 → to_result (v, c) =
      Except.error { kind := HipErrorKind.from_raw c, code := c }) := by
  cases c with
  | zero => exact ⟨⟨fun _ => rfl, fun _ => rfl⟩, fun h => absurd rfl h⟩
  | succ n =>
      exact ⟨⟨fun h => Except.noConfusion h, fun h => Nat.noConfusion h⟩,
        fun _ => rfl⟩

/-- Witness for C1 at the concrete pair `(7, 5)`. -/
theorem to_result_spec_witness :
    to_result ((7 : Nat), 5) =
      Except.error { kind := HipErrorKind.Unknown, code := 5 } :=
  (to_result_spec (7 : Nat) 5).2 (by decide)

/-- C2: `HipErrorKind::from_raw` is a total pure function: it maps each of
the documented well-known codes 1, 2, 3, 4, 101, 301, 600, 801 to its
specific kind and every other nonzero code to `Unknown`. -/
theorem from_raw_classification :
    HipErrorKind.from_raw 1 = HipErrorKind.InvalidValue ∧
    HipErrorKind.from_raw 2 = HipErrorKind.MemoryAllocation ∧
    HipErrorKind.from_raw 3 = HipErrorKind.NotInitialized ∧
    HipErrorKind.from_raw 4 = HipErrorKind.Deinitialized ∧
    HipErrorKind.from_raw 101 = HipErrorKind.InvalidDevice ∧
    HipErrorKind.from_raw 301 = HipErrorKind.FileNotFound ∧
    HipErrorKind.from_raw 600 = HipErrorKind.NotReady ∧
    HipErrorKind.from_raw 801 = HipErrorKind.NotSupported ∧
    ∀ c : Nat, c ≠ 0 → c ≠ 1 → c ≠ 2 → c ≠ 3 → c ≠ 4 → c ≠ 101 → c ≠ 301 →
      c ≠ 600 → c ≠ 801 → HipErrorKind.from_raw c = HipErrorKind.Unknown := by
  refine ⟨rfl, rfl, rfl, rfl, rfl, rfl, rfl, rfl, ?_⟩
  intro c h0 h1 h2 h3 h4 h101 h301 h600 h801
  unfold HipErrorKind.from_raw
  split <;> simp_all

/-- Witness for C2 at the concrete unmapped code `7`. -/
theorem from_raw_classification_witness :
    HipErrorKind.from_raw 7 = HipErrorKind.Unknown :=
  from_raw_classification.2.2.2.2.2.2.2.2 7 (by decide) (by decide) (by decide)
    (by decide) (by decide) (by decide) (by decide) (by decide) (by decide)

/-- C9: the catch-all arm of `from_raw` matches `0` as well, so
`from_raw 0 = Unknown` and `HipError::new(0)` is the well-defined value
with kind `Unknown` and code `0`; `HipError::new` is total: for every code
it pairs `from_raw` of the code with the code itself. -/
theorem from_raw_zero_total :
    HipErrorKind.from_raw 0 = HipErrorKind.Unknown ∧
    HipError.new 0 = { kind := HipErrorKind.Unknown, code := 0 } ∧
    ∀ c : Nat, HipError.new c = { kind := HipErrorKind.from_raw c, code := c } :=
  ⟨rfl, rfl, fun _ => rfl⟩

/-- C4: the defensive `initialize` (src/runtime/safe.rs) returns a
`Result` for every native outcome: a caught fault is converted to the
invalid-argument kind (`HipError::from_kind(InvalidValue)`, i.e. kind
`InvalidValue` with code 1), and a normal return of a status code is fed
through `to_result` exactly as in every other operation. -/
theorem safe_init_catches_fault :
    SafeRs.runtimeInitO NativeOutcome.fault =
      Except.error { kind := HipErrorKind.InvalidValue, code := 1 } ∧
    ∀ code : Nat,
      SafeRs.runtimeInitO (NativeOutcome.ret code) = to_result ((), code) :=
  ⟨rfl, fun _ => rfl⟩

/-- C6: `set_device(d)` echoes exactly the same `Device` value back on
status code `0`; on a nonzero code the error kind is `from_raw` of that
code, and in particular code 101 yields the invalid-device kind. -/
theorem set_device_spec (device : Device) (code : Nat) :
    (code = 0 → SafeRs.set_device device code = Except.ok device) ∧
    (code ≠ 0 → SafeRs.set_device device code =
      Except.error { kind := HipErrorKind.from_raw code, code := code }) ∧
    SafeRs.set_device device 101 =
      Except.error { kind := HipErrorKind.InvalidDevice, code := 101 } := by
  refine ⟨?_, ?_, rfl⟩
  · rintro rfl; rfl
  · intro h
    cases code with
    | zero => exact absurd rfl h
    | succ n => rfl

/-- Witness for C6: device 99 with runtime status 101 yields the
invalid-device error. -/
theorem set_device_spec_witness :
    SafeRs.set_device (Device.new 99) 101 =
      Except.error { kind := HipErrorKind.InvalidDevice, code := 101 } :=
  (set_device_spec (Device.new 99) 101).2.1 (by decide)

/-- An `i32` value in range reinterprets to `u64` as its own `toNat`. -/
theorem i32ToU64_of_nonneg (w : Int) (h0 : 0 ≤ w) (h : w < 2 ^ 31) :
    i32ToU64 w = w.toNat := by
  unfold i32ToU64
  omega

/-- C3: `decode_hip_version` decodes a nonnegative encoded `i32` as
`major = v / 1_000_000`, `minor = (v / 1_000) % 1_000`,
`patch = v % 1_000`; the sentinel `-1` decodes to `(0, 0, 0)` and
`9002005` decodes to `(9, 2, 5)`. -/
theorem decode_hip_version_spec :
    InitRs.decode_hip_version (-1) = Version.new 0 0 0 ∧
    InitRs.decode_hip_version 9002005 = Version.new 9 2 5 ∧
    ∀ v : Int, 0 ≤ v → v < 2 ^ 31 →
      InitRs.decode_hip_version v =
        Version.new (v.toNat / 1000000) (v.toNat / 1000 % 1000)
          (v.toNat % 1000) := by
  refine ⟨by decide, by decide, ?_⟩
  intro v h0 hlt
  obtain ⟨n, rfl⟩ := Int.eq_ofNat_of_zero_le h0
  have hn : n < 2 ^ 31 := by exact_mod_cast hlt
  show Version.new (n / 1000000 % 18446744073709551616)
      (n / 1000 % 1000 % 18446744073709551616)
      (n % 1000 % 18446744073709551616) =
    Version.new ((n : Int).toNat / 1000000) ((n : Int).toNat / 1000 % 1000)
      ((n : Int).toNat % 1000)
  rw [Int.toNat_natCast]
  have h1 : n / 1000000 < 18446744073709551616 := by omega
  have h2 : n / 1000 % 1000 < 18446744073709551616 := by omega
  have h3 : n % 1000 < 18446744073709551616 := by omega
  rw [Nat.mod_eq_of_lt h1, Nat.mod_eq_of_lt h2, Nat.mod_eq_of_lt h3]

/-- Witness for C3 at the concrete encoded version `123456789`. -/
theorem decode_hip_version_spec_witness :
    InitRs.decode_hip_version 123456789 = Version.new 123 456 789 := by
  have h := decode_hip_version_spec.2.2 123456789 (by decide) (by decide)
  exact h

/-- C5: `get_device_uuid` converts each of the 16 raw signed bytes to an
unsigned byte by bit reinterpretation: on success every UUID byte equals
`i8ToU8` of the raw byte, lies below 256, and is congruent to the raw byte
modulo 256 (same bit pattern — neither clamped nor sign-extended); in
particular the signed byte `-1` becomes the unsigned byte `255`. -/
theorem get_device_uuid_reinterprets (device : Device)
    (bytes : Fin 16 → Int) (code : Nat) (u : Fin 16 → Nat)
    (hok : InitRs.get_device_uuid device (some bytes) code = Except.ok u) :
    (∀ i, u i = i8ToU8 (bytes i) ∧ u i < 256 ∧
      (u i : Int) % 256 = bytes i % 256) ∧
    i8ToU8 (-1) = 255 := by
  refine ⟨?_, by decide⟩
  cases code with
  | zero =>
      have hu : (fun i => i8ToU8 (bytes i)) = u := by
        have := hok
        unfold InitRs.get_device_uuid InitRs.get_device_uuid_bytes
          to_result at this
        simpa [Except.map] using this
      intro i
      have hui : u i = i8ToU8 (bytes i) := by rw [← hu]
      refine ⟨hui, ?_, ?_⟩
      · rw [hui]; unfold i8ToU8; omega
      · rw [hui]; unfold i8ToU8; omega
  | succ n =>
      exact absurd hok (by
        unfold InitRs.get_device_uuid InitRs.get_device_uuid_bytes
          to_result
        simp [Except.map])

/-- Witness for C5: the all-`-1` raw byte buffer maps to the all-`255`
UUID. -/
theorem get_device_uuid_reinterprets_witness :
    (255 : Nat) < 256 ∧ ((255 : Nat) : Int) % 256 = (-1 : Int) % 256 := by
  have he : (fun _ : Fin 16 => i8ToU8 (-1)) = (fun _ : Fin 16 => (255 : Nat)) :=
    funext fun _ => by decide
  have hok : InitRs.get_device_uuid (Device.new 0) (some fun _ => (-1 : Int)) 0 =
      Except.ok (fun _ => (255 : Nat)) := congrArg Except.ok he
  have h := get_device_uuid_reinterprets (Device.new 0) (fun _ => -1) 0
    (fun _ => 255) hok
  exact ⟨(h.1 0).2.1, (h.1 0).2.2⟩

/-- C7: `device_compute_capability` feeds `Version::new(major as u64,
minor as u64, 0)` through `to_result`, with both out-slots initialized to
the sentinel `-1`: every successful `Version` has patch exactly `0`, and
its major/minor are the `u64` reinterpretation of the value the native
call wrote into the slot (an in-range nonnegative written value is
returned as itself; an unwritten slot yields the reinterpreted
sentinel `-1`). -/
theorem device_compute_capability_spec (device : Device)
    (wMajor wMinor : Option Int) (code : Nat) (v : Version)
    (hok : SafeRs.device_compute_capability device wMajor wMinor code =
      Except.ok v) :
    v.patch = 0 ∧
    v.major = i32ToU64 (wMajor.getD (-1)) ∧
    v.minor = i32ToU64 (wMinor.getD (-1)) ∧
    (∀ w : Int, wMajor = some w → 0 ≤ w → w < 2 ^ 31 → v.major = w.toNat) ∧
    (wMajor = none → v.major = 18446744073709551615) := by
  have hv : Version.new (i32ToU64 (wMajor.getD (-1)))
      (i32ToU64 (wMinor.getD (-1))) 0 = v := by
    cases code with
    | zero =>
        have := hok
        unfold SafeRs.device_compute_capability to_result at this
        simpa using this
    | succ n =>
        exact absurd hok (by
          unfold SafeRs.device_compute_capability to_result
          simp)
  refine ⟨by rw [← hv]; rfl, by rw [← hv]; rfl, by rw [← hv]; rfl, ?_, ?_⟩
  · intro w hw h0 hlt
    rw [← hv]
    show i32ToU64 (wMajor.getD (-1)) = w.toNat
    rw [hw]
    exact i32ToU64_of_nonneg w h0 hlt
  · intro hnone
    rw [← hv]
    show i32ToU64 (wMajor.getD (-1)) = 18446744073709551615
    rw [hnone]
    decide

/-- Witness for C7: native call writes major 9, minor 4, returns code 0;
the result is version `9.4.0`. -/
theorem device_compute_capability_spec_witness :
    Version.new 9 4 0 = Version.new 9 4 0 ∧
    (Version.new 9 4 0).patch = 0 := by
  have h := device_compute_capability_spec (Device.new 0) (some 9) (some 4) 0
    (Version.new 9 4 0) (by rfl)
  exact ⟨rfl, h.1⟩

/-- C8: `get_device_by_pci_bus_id` pre-sets the output identifier slot to
`i32::MAX` (2147483647): when the native call does not write the slot, the
candidate device carries the sentinel identifier (not `0`), and a failing
code yields the classified error, so no stale `0` identifier can leak. -/
theorem get_device_by_pci_bus_id_sentinel (pci : PCIBusId) (code : Nat) :
    InitRs.get_device_by_pci_bus_id pci none code =
      to_result (Device.new 2147483647, code) ∧
    (code ≠ 0 → InitRs.get_device_by_pci_bus_id pci none code =
      Except.error (HipError.new code)) ∧
    Device.new 2147483647 ≠ Device.new 0 := by
  refine ⟨rfl, ?_, by decide⟩
  intro h
  cases code with
  | zero => exact absurd rfl h
  | succ n => rfl

/-- Witness for C8: a degenerate all-zero PCI bus id with failing code 301
yields the classified error and leaves only the sentinel identifier. -/
theorem get_device_by_pci_bus_id_sentinel_witness :
    InitRs.get_device_by_pci_bus_id { bytes := [] } none 301 =
      Except.error { kind := HipErrorKind.FileNotFound, code := 301 } :=
  (get_device_by_pci_bus_id_sentinel { bytes := [] } 301).2.1 (by decide)

/-- C10 (amended): the query functions duplicated between
src/runtime/init.rs and src/runtime/safe.rs are extensionally equal on
every raw-call outcome, and the two `initialize` functions agree whenever
the native call returns a status code normally; they differ only on a
fault, which safe.rs converts to an error while init.rs propagates it. -/
theorem init_safe_extensional_equal :
    (∀ w code, InitRs.get_device_count w code = SafeRs.get_device_count w code) ∧
    (∀ w code, InitRs.get_device w code = SafeRs.get_device w code) ∧
    (∀ d code, InitRs.set_device d code = SafeRs.set_device d code) ∧
    (∀ d wa wb code, InitRs.device_compute_capability d wa wb code =
      SafeRs.device_compute_capability d wa wb code) ∧
    (∀ code, InitRs.runtimeInitO (NativeOutcome.ret code) =
      some (SafeRs.runtimeInitO (NativeOutcome.ret code))) ∧
    InitRs.runtimeInitO NativeOutcome.fault = none ∧
    SafeRs.runtimeInitO NativeOutcome.fault =
      Except.error (HipError.from_kind HipErrorKind.InvalidValue) :=
  ⟨fun _ _ => rfl, fun _ _ => rfl, fun _ _ => rfl, fun _ _ _ _ => rfl,
    fun _ => rfl, rfl, rfl⟩

/-- Counterexample for C10 as stated: on a faulting native call it is the
init.rs `initialize` that does NOT return (the fault propagates, modelled
as `none`), while the safe.rs `initialize` converts the fault to the
invalid-argument error — the claim attributes the conversion to init.rs
and the propagation to safe.rs, which is the reverse. -/
theorem init_fault_attribution_cex :
    InitRs.runtimeInitO NativeOutcome.fault = none ∧
    SafeRs.runtimeInitO NativeOutcome.fault =
      Except.error { kind := HipErrorKind.InvalidValue, code := 1 } :=
  ⟨rfl, rfl⟩

end HipRs
